import Mathlib

set_option linter.unusedVariables false

/-
Verification of the tool-call resolution loops and HTTP helper functions of
the agent-practice repository (Python demo scripts driving a remote agent
service).

The embedding models:
  * the freshdesk tool-call loop of src/integrations/freshdesk_integration.py
    (the `for tool_call in tool_calls` body inside `__main__`),
  * the email tool-call loop of src/integrations/email_integration.py
    (the `for call in ...tool_calls` body inside `chat`),
  * `create_freshdesk_ticket`, `send_email_function` and `get_weather`,
  * the post-run policies of the three chat-loop scripts.

External effects (HTTP requests, `json.loads`) are passed in explicitly:
an HTTP call outcome is a value of an inductive type supplied by a world
function `w : Nat → _` indexed by the position of the tool call in the
pending list, and `json.loads` is an argument `jl : String → Except String
ArgsDict` (its failure constructor models a raised decoding exception; a
decoded payload that is not a dict is folded into the same failure, since
the scripts immediately use it as a dict).  A Python exception that the
source does not catch is modelled by `Except.error` propagating out of the
modelled function.
-/

namespace AgentSpec

/-- Decoded JSON argument payload: key/value pairs of a Python dict
(the scripts only ever read string values out of it). -/
abbrev ArgsDict := List (String × String)

/-- The record `tool_call.function` as the scripts read it: a name and the raw
(undecoded) argument string, which the service may omit (`None`). -/
structure ToolCallFunction where
  name : String
  arguments : Option String
deriving Repr, DecidableEq

/-- The record `tool_call` as the scripts read it. -/
structure ToolCall where
  id : String
  function : ToolCallFunction
deriving Repr, DecidableEq

/-- One element of the `tool_outputs` list the loops build:
`{"tool_call_id": ..., "output": ...}`. -/
structure ToolOutput where
  tool_call_id : String
  output : String
deriving Repr, DecidableEq

/-- Python `x or "{}"` on the optional argument string of the freshdesk
loop: `None` and `""` are falsy, so both become `"{}"`. -/
def pyOrBraces (s : Option String) : String :=
  match s with
  | none => "\x7b\x7d"
  | some t => if t = "" then ("\x7b\x7d") else t

/-- Python `d.get(k, default)` on a decoded argument dict. -/
def pyGetDefault (d : ArgsDict) (k : String) (default : String) : String :=
  match d.find? (fun kv => kv.1 = k) with
  | some kv => kv.2
  | none => default

/-- Python `d[k]` on a decoded argument dict: raises `KeyError` when the
key is absent. -/
def pyIndex (d : ArgsDict) (k : String) : Except String String :=
  match d.find? (fun kv => kv.1 = k) with
  | some kv => Except.ok kv.2
  | none => Except.error ("KeyError: " ++ k)

/-- Outcome of the `requests.post` call made by `create_freshdesk_ticket`:
either a response (status code, `response.text`, and the result of
`json.dumps(response.json(), indent=4)` — `.error` when `response.json()`
raises) or a raised exception. -/
inductive PostResult where
  | response (status_code : Nat) (text : String) (jsonDumps : Except String String)
  | raised (msg : String)
deriving Repr

/-- Rendering of `json.dumps({"status_code": sc, "error": text}, indent=4)`
(whitespace simplified). -/
def dumpsStatusError (sc : Nat) (text : String) : String :=
  "\x7b\"status_code\": " ++ toString sc ++ ", \"error\": \"" ++ text ++ "\"\x7d"

/-- Model of `create_freshdesk_ticket` (freshdesk_integration.py lines 26-67):
posts the ticket and returns the dumped response JSON on 201, an
error-info JSON string otherwise.  There is no `try` in the source, so a
raised exception from `requests.post` (or from `response.json()` on the
201 path) propagates to the caller, modelled by `Except.error`. -/
def create_freshdesk_ticket (Email : String) (Subject : String)
    (r : PostResult) : Except String String :=
  match r with
  | PostResult.raised m => Except.error m
  | PostResult.response sc text jd =>
      if sc = 201 then jd else Except.ok (dumpsStatusError sc text)

/-- Rendering of `json.dumps({"error": f"Unknown tool {func_name}"},
indent=4)` (whitespace simplified). -/
def dumpsUnknown (func_name : String) : String :=
  "\x7b\"error\": \"Unknown tool " ++ func_name ++ "\"\x7d"

/-- The per-call body of the freshdesk tool-call loop
(freshdesk_integration.py lines 168-186): decode
`json.loads(tool_call.function.arguments or "{}")` (a raised decoding
exception propagates, modelled by `Except.error`), then dispatch to
`create_freshdesk_ticket` when the name matches (its raised exceptions
propagate), otherwise build the unknown-tool error payload.  Returns the
`result` string for the output entry, together with the list of
`(Email, Subject)` pairs `create_freshdesk_ticket` was invoked with
(empty for an unknown tool). -/
def freshdeskHandle (jl : String → Except String ArgsDict)
    (w : Nat → PostResult) (i : Nat) (c : ToolCall) :
    Except String (String × List (String × String)) :=
  match jl (pyOrBraces c.function.arguments) with
  | Except.error m => Except.error m
  | Except.ok func_args =>
      if c.function.name = "create_freshdesk_ticket" then
        match create_freshdesk_ticket (pyGetDefault func_args ("Email") "")
            (pyGetDefault func_args ("Subject") "") (w i) with
        | Except.error m => Except.error m
        | Except.ok result =>
            Except.ok (result,
              [(pyGetDefault func_args ("Email") "",
                pyGetDefault func_args ("Subject") "")])
      else
        Except.ok (dumpsUnknown c.function.name, [])

/-- The freshdesk tool-call loop (freshdesk_integration.py lines 166-193),
processing the tail of `tool_calls` starting at position `i` of the
original list: one `tool_output` entry is appended per call; any raised
exception aborts the loop.  Returns the built `tool_outputs` together
with the concatenated invocation records. -/
def freshdeskResolveGo (jl : String → Except String ArgsDict)
    (w : Nat → PostResult) (i : Nat) :
    List ToolCall → Except String (List ToolOutput × List (String × String))
  | [] => Except.ok ([], [])
  | c :: rest =>
      match freshdeskHandle jl w i c with
      | Except.error m => Except.error m
      | Except.ok step =>
          match freshdeskResolveGo jl w (i + 1) rest with
          | Except.error m => Except.error m
          | Except.ok tail =>
              Except.ok (ToolOutput.mk c.id step.1 :: tail.1, step.2 ++ tail.2)

/-- One full pass of the freshdesk tool-call loop over `tool_calls`. -/
def freshdeskResolveOnce (jl : String → Except String ArgsDict)
    (w : Nat → PostResult) (tool_calls : List ToolCall) :
    Except String (List ToolOutput × List (String × String)) :=
  freshdeskResolveGo jl w 0 tool_calls

/-- Outcome of the `requests.post` call made by `send_email_function`:
a response status code, or a raised exception (which also covers failures
of `urlparse`/`parse_qs` inside the `try`). -/
inductive EmailPostResult where
  | response (status_code : Nat)
  | raised (msg : String)
deriving Repr, DecidableEq

/-- Model of `send_email_function` (email_integration.py lines 36-49): the whole
body is inside `try`, so it always returns a string — the success string
on 200/202, a failure string with the status code otherwise, and an error
string with the exception message when anything raises. -/
def send_email_function (email_to : String) (email_subject : String)
    (email_body : String) (r : EmailPostResult) : String :=
  match r with
  | EmailPostResult.response sc =>
      if sc = 200 ∨ sc = 202 then ("✅ Email sent!")
      else ("❌ Failed: ") ++ toString sc
  | EmailPostResult.raised m => "❌ Error: " ++ m

/-- The per-call body of the email tool-call loop for a call named
`"send_email"` (email_integration.py lines 99-103):
`json.loads(call.function.arguments)` is decoded (an absent argument
string makes `json.loads(None)` raise `TypeError`; decoding failures
propagate), the three arguments are read with `args[...]` (a missing key
raises `KeyError`, which propagates), and `send_email_function` is
invoked.  Returns the `result` string together with the
`(email_to, email_subject, email_body)` triple the handler was invoked
with. -/
def emailHandle (jl : String → Except String ArgsDict)
    (w : Nat → EmailPostResult) (i : Nat) (c : ToolCall) :
    Except String (String × (String × String × String)) :=
  match c.function.arguments with
  | none => Except.error ("TypeError: the JSON object must be str")
  | some raw =>
      match jl raw with
      | Except.error m => Except.error m
      | Except.ok args =>
          match pyIndex args ("email_to") with
          | Except.error m => Except.error m
          | Except.ok email_to =>
              match pyIndex args ("email_subject") with
              | Except.error m => Except.error m
              | Except.ok email_subject =>
                  match pyIndex args ("email_body") with
                  | Except.error m => Except.error m
                  | Except.ok email_body =>
                      Except.ok
                        (send_email_function email_to email_subject email_body
                          (w i),
                        (email_to, email_subject, email_body))

/-- The email tool-call loop (email_integration.py lines 97-103),
processing the tail of the pending calls starting at position `i`: an
output entry is appended only for calls named `"send_email"`; calls with
any other name are skipped entirely.  Returns the built `outputs`
together with the handler invocation records. -/
def emailResolveGo (jl : String → Except String ArgsDict)
    (w : Nat → EmailPostResult) (i : Nat) :
    List ToolCall →
      Except String (List ToolOutput × List (String × String × String))
  | [] => Except.ok ([], [])
  | c :: rest =>
      if c.function.name = "send_email" then
        match emailHandle jl w i c with
        | Except.error m => Except.error m
        | Except.ok step =>
            match emailResolveGo jl w (i + 1) rest with
            | Except.error m => Except.error m
            | Except.ok tail =>
                Except.ok (ToolOutput.mk c.id step.1 :: tail.1,
                  step.2 :: tail.2)
      else
        emailResolveGo jl w (i + 1) rest

/-- One full pass of the email tool-call loop over the pending calls. -/
def emailResolveOnce (jl : String → Except String ArgsDict)
    (w : Nat → EmailPostResult) (tool_calls : List ToolCall) :
    Except String (List ToolOutput × List (String × String × String)) :=
  emailResolveGo jl w 0 tool_calls

/-- One iteration of the freshdesk polling loop (freshdesk_integration.py
lines 154-200) applied to the run view observed this iteration: `status`
is `run.status` and `required_action` is `some tool_calls` when
`run.required_action` is set (truthy), `none` otherwise.  The first
component is `some status` when the `while` guard fails (the loop exits
with that status); the second is the `(tool_outputs, invocations)` the
iteration produced. -/
def freshdeskStep (jl : String → Except String ArgsDict)
    (w : Nat → PostResult) (status : String)
    (required_action : Option (List ToolCall)) :
    Option String × Except String (List ToolOutput × List (String × String)) :=
  if status = "queued" ∨ status = "in_progress" ∨ status = "requires_action" then
    (none,
      if status = "requires_action" then
        match required_action with
        | some tool_calls => freshdeskResolveOnce jl w tool_calls
        | none => Except.ok ([], [])
      else Except.ok ([], []))
  else
    (some status, Except.ok ([], []))

/-- One iteration of the email polling loop (email_integration.py lines
95-109) applied to the run view observed this iteration.  The source
reads `run.required_action.submit_tool_outputs.tool_calls` without a
truthiness check, so a missing `required_action` raises
`AttributeError` — but only inside the `requires_action` branch. -/
def emailStep (jl : String → Except String ArgsDict)
    (w : Nat → EmailPostResult) (status : String)
    (required_action : Option (List ToolCall)) :
    Option String ×
      Except String (List ToolOutput × List (String × String × String)) :=
  if status = "queued" ∨ status = "in_progress" ∨ status = "requires_action" then
    (none,
      if status = "requires_action" then
        match required_action with
        | some tool_calls => emailResolveOnce jl w tool_calls
        | none =>
            Except.error ("AttributeError: NoneType has no attribute submit_tool_outputs")
      else Except.ok ([], []))
  else
    (some status, Except.ok ([], []))

/-- What a chat-loop script does right after its run finishes, before
showing a reply. -/
inductive AfterRunAction where
  | exitLoop
  | nextInput
  | showReply
deriving Repr, DecidableEq

/-- azureai_search_agent.py lines 108-110: `if run.status == "failed":
print(...); break` — a failed run terminates the chat loop. -/
def azureaiSearchAfterRun (status : String) : AfterRunAction :=
  if status = "failed" then AfterRunAction.exitLoop else AfterRunAction.showReply

/-- code_interpreter_agent.py lines 88-90: `if status != "completed":
print(...); continue` — a failed (or cancelled) run prints and moves on to
the next user input. -/
def codeInterpreterAfterRun (status : String) : AfterRunAction :=
  if status = "completed" then AfterRunAction.showReply else AfterRunAction.nextInput

/-- filesearch_agent.py lines 86-89: `if run.status == "failed":
print(...); continue` — a failed run prints and moves on to the next user
input. -/
def filesearchAfterRun (status : String) : AfterRunAction :=
  if status = "failed" then AfterRunAction.nextInput else AfterRunAction.showReply

/-- JSON values, as returned by `response.json()` in `get_weather`. -/
inductive Json where
  | null
  | bool (b : Bool)
  | num (q : ℚ)
  | str (s : String)
  | arr (xs : List Json)
  | obj (kvs : List (String × Json))
deriving Repr

/-- Python `data[k]` on a JSON value: `KeyError` when the key is absent
from an object, `TypeError` when the value is not an object. -/
def jsonIndexStr (j : Json) (k : String) : Except String Json :=
  match j with
  | Json.obj kvs =>
      match kvs.find? (fun kv => kv.1 = k) with
      | some kv => Except.ok kv.2
      | none => Except.error ("KeyError: " ++ k)
  | _ => Except.error ("TypeError: not subscriptable by str")

/-- Python `data[i]` on a JSON value: `IndexError` when out of range,
`TypeError` when the value is not an array. -/
def jsonIndexNat (j : Json) (i : Nat) : Except String Json :=
  match j with
  | Json.arr xs =>
      match xs.get? i with
      | some x => Except.ok x
      | none => Except.error ("IndexError: list index out of range")
  | _ => Except.error ("TypeError: not subscriptable by int")

/-- Python `data.get(k, default)` on a JSON value: `AttributeError` when
the value is not an object (only dicts have `.get`). -/
def jsonGetDefault (j : Json) (k : String) (default : Json) : Except String Json :=
  match j with
  | Json.obj kvs =>
      match kvs.find? (fun kv => kv.1 = k) with
      | some kv => Except.ok kv.2
      | none => Except.ok default
  | _ => Except.error ("AttributeError: no attribute get")

/-- Outcome of `requests.get(url)` followed by `response.json()` in
`get_weather`: a raised request exception, or a status code together with
the decoded body (`.error` when `response.json()` raises). -/
inductive WeatherHttp where
  | raised (msg : String)
  | response (status_code : Nat) (data : Except String Json)
deriving Repr

/-- The field extraction performed by `get_weather` on the 200 path
(function_calling_agent.py lines 61-67); any indexing failure is a raised
exception (caught by the surrounding `try`). -/
def extractWeather (data : Json) : Except String (List (String × Json)) :=
  match jsonIndexStr data ("coord") with
  | Except.error m => Except.error m
  | Except.ok coord =>
  match jsonIndexStr coord ("lat") with
  | Except.error m => Except.error m
  | Except.ok lat =>
  match jsonIndexStr coord ("lon") with
  | Except.error m => Except.error m
  | Except.ok lon =>
  match jsonIndexStr data ("weather") with
  | Except.error m => Except.error m
  | Except.ok weather =>
  match jsonIndexNat weather 0 with
  | Except.error m => Except.error m
  | Except.ok weather0 =>
  match jsonIndexStr weather0 ("description") with
  | Except.error m => Except.error m
  | Except.ok description =>
  match jsonIndexStr data ("main") with
  | Except.error m => Except.error m
  | Except.ok main =>
  match jsonIndexStr main ("temp") with
  | Except.error m => Except.error m
  | Except.ok temp =>
  match jsonGetDefault data ("name") (Json.str ("Unknown")) with
  | Except.error m => Except.error m
  | Except.ok name =>
      Except.ok [("latitude", lat), ("longitude", lon),
        ("weather_condition", description), ("temperature", temp),
        ("city", name)]

/-- The body of `get_weather`'s `try` block (function_calling_agent.py
lines 56-67): a raised request exception re-raises; then `data =
response.json()` (re-raises on decode failure); on a non-200 status the
error dict is built from `data.get("message", "API error")`; otherwise the
five weather fields are extracted. -/
def getWeatherTryBody (h : WeatherHttp) : Except String (List (String × Json)) :=
  match h with
  | WeatherHttp.raised m => Except.error m
  | WeatherHttp.response sc dataE =>
      match dataE with
      | Except.error m => Except.error m
      | Except.ok data =>
          if sc ≠ 200 then
            match jsonGetDefault data ("message") (Json.str ("API error")) with
            | Except.error m => Except.error m
            | Except.ok msg => Except.ok [("error", msg)]
          else
            extractWeather data

/-- Model of `get_weather` (function_calling_agent.py lines 50-69): the whole body
is inside `try`, so it always returns a dict; any raised exception becomes
`{"error": str(e)}`. -/
def get_weather (h : WeatherHttp) : List (String × Json) :=
  match getWeatherTryBody h with
  | Except.ok d => d
  | Except.error m => [("error", Json.str m)]

/-! ### Helper lemmas about the two resolution loops -/

/-- When the freshdesk loop completes without a raised exception, the
identifiers on the outputs are exactly the identifiers of the input
calls, in order. -/
theorem freshdeskGo_ids (jl : String → Except String ArgsDict)
    (w : Nat → PostResult) :
    ∀ (tool_calls : List ToolCall) (i : Nat) (outs : List ToolOutput)
      (invs : List (String × String)),
      freshdeskResolveGo jl w i tool_calls = Except.ok (outs, invs) →
      outs.map (fun o => o.tool_call_id) = tool_calls.map (fun c => c.id)
  | [], i, outs, invs, h => by
      simp only [freshdeskResolveGo, Except.ok.injEq, Prod.mk.injEq] at h
      obtain ⟨h1, h2⟩ := h
      subst h1
      simp
  | c :: rest, i, outs, invs, h => by
      rw [freshdeskResolveGo] at h
      cases hh : freshdeskHandle jl w i c with
      | error m => rw [hh] at h; exact absurd h (by simp)
      | ok step =>
          rw [hh] at h
          cases ht : freshdeskResolveGo jl w (i + 1) rest with
          | error m => rw [ht] at h; exact absurd h (by simp)
          | ok tail =>
              obtain ⟨touts, tinvs⟩ := tail
              rw [ht] at h
              simp only [Except.ok.injEq, Prod.mk.injEq] at h
              obtain ⟨h1, h2⟩ := h
              subst h1
              simpa using freshdeskGo_ids jl w rest (i + 1) touts tinvs ht

/-- When the email loop completes without a raised exception, the
identifiers on the outputs are exactly the identifiers of the input calls
named `"send_email"`, in order. -/
theorem emailGo_ids (jl : String → Except String ArgsDict)
    (w : Nat → EmailPostResult) :
    ∀ (tool_calls : List ToolCall) (i : Nat) (outs : List ToolOutput)
      (invs : List (String × String × String)),
      emailResolveGo jl w i tool_calls = Except.ok (outs, invs) →
      outs.map (fun o => o.tool_call_id) =
        (tool_calls.filter
          (fun c => c.function.name == "send_email")).map (fun c => c.id)
  | [], i, outs, invs, h => by
      simp only [emailResolveGo, Except.ok.injEq, Prod.mk.injEq] at h
      obtain ⟨h1, h2⟩ := h
      subst h1
      simp
  | c :: rest, i, outs, invs, h => by
      rw [emailResolveGo] at h
      by_cases hn : c.function.name = "send_email"
      · rw [if_pos hn] at h
        cases hh : emailHandle jl w i c with
        | error m => rw [hh] at h; exact absurd h (by simp)
        | ok step =>
            rw [hh] at h
            cases ht : emailResolveGo jl w (i + 1) rest with
            | error m => rw [ht] at h; exact absurd h (by simp)
            | ok tail =>
                obtain ⟨touts, tinvs⟩ := tail
                rw [ht] at h
                simp only [Except.ok.injEq, Prod.mk.injEq] at h
                obtain ⟨h1, h2⟩ := h
                subst h1
                simpa [List.filter_cons, hn]
                  using emailGo_ids jl w rest (i + 1) touts tinvs ht
      · rw [if_neg hn] at h
        simpa [List.filter_cons, hn]
          using emailGo_ids jl w rest (i + 1) outs invs h

/-- A failure string of `send_email_function` is never the success
string (the first character differs). -/
theorem failed_ne_sent (t : String) :
    ("❌ Failed: " ++ t) ≠ "✅ Email sent!" := by
  intro h
  have h2 : ('❌' :: (" Failed: ".data ++ t.data)) =
      ("✅ Email sent!" : String).data := by
    rw [← h]
    show _ = ("❌ Failed: ").data ++ t.data
    rfl
  simp at h2

/-- An error string of `send_email_function` is never the success string
(the first character differs). -/
theorem error_ne_sent (t : String) :
    ("❌ Error: " ++ t) ≠ "✅ Email sent!" := by
  intro h
  have h2 : ('❌' :: (" Error: ".data ++ t.data)) =
      ("✅ Email sent!" : String).data := by
    rw [← h]
    show _ = ("❌ Error: ").data ++ t.data
    rfl
  simp at h2

/-! ### Concrete fixtures used by counterexamples and witnesses -/

/-- A `json.loads` model mapping every argument string to the empty
dict. -/
def jlEmpty : String → Except String ArgsDict := fun _ => Except.ok []

/-- A `json.loads` model mapping every argument string to a dict holding
the three email fields. -/
def jlEmail : String → Except String ArgsDict := fun _ =>
  Except.ok [("email_to", "u"), ("email_subject", "s"), ("email_body", "b")]

/-- A `json.loads` model mapping every argument string to a dict with a
single unrelated key. -/
def jlOther : String → Except String ArgsDict := fun _ =>
  Except.ok [("Other", "x")]

/-- A world in which every `requests.post` of the freshdesk handler
returns status 400. -/
def wFresh400 : Nat → PostResult := fun _ =>
  PostResult.response 400 ("bad") (Except.ok ("x"))

/-- A world in which every `requests.post` of the freshdesk handler
returns status 201 with a decodable body. -/
def wFresh201 : Nat → PostResult := fun _ =>
  PostResult.response 201 ("t") (Except.ok ("TICKET"))

/-- A world in which every `requests.post` of the freshdesk handler
raises a connection error. -/
def wFreshRaise : Nat → PostResult := fun _ =>
  PostResult.raised ("ConnectionError")

/-- A world in which every email post returns status 200. -/
def wEmailOk : Nat → EmailPostResult := fun _ => EmailPostResult.response 200

/-- A world in which every email post raises. -/
def wEmailRaise : Nat → EmailPostResult := fun _ =>
  EmailPostResult.raised ("boom")

/-- A pending tool call naming an unregistered function. -/
def cNope : ToolCall := ToolCall.mk ("a") (ToolCallFunction.mk ("nope") none)

/-- A pending tool call for the freshdesk handler with an empty argument
string. -/
def cTicket : ToolCall :=
  ToolCall.mk ("id3") (ToolCallFunction.mk ("create_freshdesk_ticket") (some ("")))

/-- A pending tool call for the email handler. -/
def cSend : ToolCall :=
  ToolCall.mk ("b") (ToolCallFunction.mk ("send_email") (some ("x")))

/-! ### Claim theorems -/

/-- C6: across the repository's scripts the post-failed-run policy
diverges: the azureai-search chat loop breaks out (terminates) on a
failed run, while the code-interpreter and filesearch loops print the
failure and continue to the next user input. -/
theorem C6_failed_run_policy_diverges :
    azureaiSearchAfterRun ("failed") = AfterRunAction.exitLoop ∧
    codeInterpreterAfterRun ("failed") = AfterRunAction.nextInput ∧
    filesearchAfterRun ("failed") = AfterRunAction.nextInput ∧
    AfterRunAction.exitLoop ≠ AfterRunAction.nextInput := by
  refine ⟨rfl, ?_, rfl, by decide⟩
  have h : ("failed" : String) ≠ "completed" := by decide
  simp [codeInterpreterAfterRun, h]

/-- C9: `send_email_function` is total (never raises, its whole body is
inside `try`) and returns the success string exactly when the response
status code is 200 or 202; any other response yields the `Failed` string
carrying the status code, and a raised exception yields the `Error`
string carrying the exception message. -/
theorem C9_send_email_result :
    (∀ email_to email_subject email_body r,
      send_email_function email_to email_subject email_body r =
          "✅ Email sent!" ↔
        ∃ sc, r = EmailPostResult.response sc ∧ (sc = 200 ∨ sc = 202)) ∧
    (∀ email_to email_subject email_body sc, ¬(sc = 200 ∨ sc = 202) →
      send_email_function email_to email_subject email_body
          (EmailPostResult.response sc) = "❌ Failed: " ++ toString sc) ∧
    (∀ email_to email_subject email_body m,
      send_email_function email_to email_subject email_body
          (EmailPostResult.raised m) = "❌ Error: " ++ m) := by
  refine ⟨?_, ?_, fun _ _ _ _ => rfl⟩
  · intro a b c r
    constructor
    · intro h
      cases r with
      | response sc =>
          refine ⟨sc, rfl, ?_⟩
          by_contra hsc
          rw [send_email_function, if_neg hsc] at h
          exact failed_ne_sent (toString sc) h
      | raised m =>
          exact absurd h (error_ne_sent m)
    · rintro ⟨sc, rfl, hsc⟩
      rw [send_email_function, if_pos hsc]
  · intro a b c sc hsc
    rw [send_email_function, if_neg hsc]

/-- C9 witness: concrete instances of the three parts at status 202,
status 500 and a raised exception. -/
theorem C9_send_email_result_witness :
    (send_email_function ("u") "s" "b" (EmailPostResult.response 202) =
        "✅ Email sent!" ↔
      ∃ sc, EmailPostResult.response 202 = EmailPostResult.response sc ∧
        (sc = 200 ∨ sc = 202)) ∧
    send_email_function ("u") "s" "b" (EmailPostResult.response 500) =
      "❌ Failed: " ++ toString 500 ∧
    send_email_function ("u") "s" "b" (EmailPostResult.raised ("boom")) =
      "❌ Error: " ++ "boom" :=
  ⟨C9_send_email_result.1 ("u") "s" "b" (EmailPostResult.response 202),
   C9_send_email_result.2.1 ("u") "s" "b" 500 (by decide),
   C9_send_email_result.2.2 ("u") "s" "b" "boom"⟩

/-- C4: when the observed run status is terminal (completed, failed or
cancelled), one iteration of either polling loop exits immediately with
that status, submits no tool outputs and records no handler
invocations. -/
theorem C4_terminal_state_returns_immediately :
    ∀ (jl : String → Except String ArgsDict) (wf : Nat → PostResult)
      (we : Nat → EmailPostResult) (status : String)
      (ra₁ ra₂ : Option (List ToolCall)),
      (status = "completed" ∨ status = "failed" ∨ status = "cancelled") →
      freshdeskStep jl wf status ra₁ = (some status, Except.ok ([], [])) ∧
      emailStep jl we status ra₂ = (some status, Except.ok ([], [])) := by
  intro jl wf we status ra₁ ra₂ h
  rcases h with h | h | h <;> subst h <;>
    exact ⟨by rw [freshdeskStep.eq_def, if_neg (by decide)],
      by rw [emailStep.eq_def, if_neg (by decide)]⟩

/-- C4 witness: one step at status `"completed"` with no required
action. -/
theorem C4_terminal_state_witness :
    freshdeskStep jlEmpty wFresh400 ("completed") none =
      (some ("completed"), Except.ok ([], [])) ∧
    emailStep jlEmpty wEmailOk ("completed") none =
      (some ("completed"), Except.ok ([], [])) :=
  C4_terminal_state_returns_immediately jlEmpty wFresh400 wEmailOk
    ("completed") none none (Or.inl rfl)

/-- C1 counterexample: in the email tool-call loop, one pending request
naming any function other than `"send_email"` yields zero outputs — not
exactly one output per request, and the identifier set `{"id1"}` of the
input has no counterpart on the (empty) output side. -/
theorem C1_counterexample :
    emailResolveOnce jlEmpty wEmailOk
        [ToolCall.mk ("id1") (ToolCallFunction.mk ("other_tool") (some ("\x7b\x7d")))] =
      Except.ok ([], []) ∧
    ([ToolCall.mk ("id1")
        (ToolCallFunction.mk ("other_tool") (some ("\x7b\x7d")))].length = 1) :=
  ⟨rfl, rfl⟩

/-- C1 (amended): when the freshdesk tool-call loop completes without a
raised exception it produces exactly one output per pending request, with
the identifiers equal position by position (hence as sets); the email
tool-call loop guarantees this only for the requests named
`"send_email"` — it produces exactly one output per such request, in
order, and no output at all for a request with any other name. -/
theorem C1_one_output_per_request :
    (∀ (jl : String → Except String ArgsDict) (w : Nat → PostResult)
        (tool_calls : List ToolCall) (outs : List ToolOutput)
        (invs : List (String × String)),
      freshdeskResolveOnce jl w tool_calls = Except.ok (outs, invs) →
      outs.length = tool_calls.length ∧
      outs.map (fun o => o.tool_call_id) = tool_calls.map (fun c => c.id)) ∧
    (∀ (jl : String → Except String ArgsDict) (w : Nat → EmailPostResult)
        (tool_calls : List ToolCall) (outs : List ToolOutput)
        (invs : List (String × String × String)),
      emailResolveOnce jl w tool_calls = Except.ok (outs, invs) →
      outs.map (fun o => o.tool_call_id) =
        (tool_calls.filter
          (fun c => c.function.name == "send_email")).map (fun c => c.id)) := by
  constructor
  · intro jl w tool_calls outs invs h
    have hm := freshdeskGo_ids jl w tool_calls 0 outs invs h
    refine ⟨?_, hm⟩
    have := congrArg List.length hm
    simpa using this
  · intro jl w tool_calls outs invs h
    exact emailGo_ids jl w tool_calls 0 outs invs h

/-- C1 witness: concrete instances — one freshdesk request gives one
output with the same identifier; one email request named `"send_email"`
gives one output with the same identifier. -/
theorem C1_one_output_per_request_witness :
    (([ToolOutput.mk ("a") (dumpsUnknown ("nope"))].length = [cNope].length ∧
      [ToolOutput.mk ("a") (dumpsUnknown ("nope"))].map
          (fun o => o.tool_call_id) = [cNope].map (fun c => c.id)) ∧
      [ToolOutput.mk ("b") "✅ Email sent!"].map (fun o => o.tool_call_id) =
        ([cSend].filter
          (fun c => c.function.name == "send_email")).map (fun c => c.id)) :=
  ⟨C1_one_output_per_request.1 jlEmpty wFresh400 [cNope]
      [ToolOutput.mk ("a") (dumpsUnknown ("nope"))] [] rfl,
   C1_one_output_per_request.2 jlEmail wEmailOk [cSend]
      [ToolOutput.mk ("b") "✅ Email sent!"] [("u", "s", "b")] rfl⟩

/-- C2 counterexample: in the email tool-call loop, a pending request
naming the unregistered function `"lookup_weather"` produces no output at
all — in particular no output whose payload contains an unknown-tool
indicator. -/
theorem C2_counterexample :
    emailResolveOnce jlEmpty wEmailOk
        [ToolCall.mk ("id2") (ToolCallFunction.mk ("lookup_weather") (some ("\x7b\x7d")))] =
      Except.ok ([], []) :=
  rfl

/-- C2 (amended): in the freshdesk tool-call loop a request whose
function name is not `"create_freshdesk_ticket"` yields (once its
arguments decode) an output whose payload is the
`{"error": "Unknown tool <name>"}` rendering, and contributes no handler
invocation; in the email tool-call loop a request whose function name is
not `"send_email"` yields no output and no handler invocation — the loop
skips it entirely.  Neither loop invokes a handler for such a request. -/
theorem C2_unknown_tool :
    (∀ (jl : String → Except String ArgsDict) (w : Nat → PostResult)
        (i : Nat) (c : ToolCall) (rest : List ToolCall) (args : ArgsDict),
      c.function.name ≠ "create_freshdesk_ticket" →
      jl (pyOrBraces c.function.arguments) = Except.ok args →
      freshdeskResolveGo jl w i (c :: rest) =
        (freshdeskResolveGo jl w (i + 1) rest).map
          (fun tail =>
            (ToolOutput.mk c.id (dumpsUnknown c.function.name) :: tail.1,
             tail.2))) ∧
    (∀ (jl : String → Except String ArgsDict) (w : Nat → EmailPostResult)
        (i : Nat) (c : ToolCall) (rest : List ToolCall),
      c.function.name ≠ "send_email" →
      emailResolveGo jl w i (c :: rest) = emailResolveGo jl w (i + 1) rest) := by
  constructor
  · intro jl w i c rest args hname hjl
    simp only [freshdeskResolveGo, freshdeskHandle, hjl, if_neg hname]
    cases ht : freshdeskResolveGo jl w (i + 1) rest with
    | error m => simp [Except.map]
    | ok tail => simp [Except.map]
  · intro jl w i c rest hname
    rw [emailResolveGo, if_neg hname]

/-- C2 witness: concrete instances of both parts on the unknown-named
call `cNope`. -/
theorem C2_unknown_tool_witness :
    freshdeskResolveGo jlEmpty wFresh400 0 [cNope] =
      (freshdeskResolveGo jlEmpty wFresh400 1 []).map
        (fun tail =>
          (ToolOutput.mk cNope.id (dumpsUnknown cNope.function.name) :: tail.1,
           tail.2)) ∧
    emailResolveGo jlEmpty wEmailOk 0 [cNope] =
      emailResolveGo jlEmpty wEmailOk 1 [] :=
  ⟨C2_unknown_tool.1 jlEmpty wFresh400 0 cNope [] [] (by decide) rfl,
   C2_unknown_tool.2 jlEmpty wEmailOk 0 cNope [] (by decide)⟩

/-- C5 counterexample: in the email tool-call loop with two pending
requests — first `"other"`, then `"send_email"` — the single produced
output sits at position 0 but carries the identifier `"b"` of request 1,
not the identifier `"a"` of request 0. -/
theorem C5_counterexample :
    emailResolveOnce jlEmail wEmailOk
        [ToolCall.mk ("a") (ToolCallFunction.mk ("other") (some ("x"))), cSend] =
      Except.ok ([ToolOutput.mk ("b") "✅ Email sent!"], [("u", "s", "b")]) ∧
    (ToolOutput.mk ("b") "✅ Email sent!").tool_call_id ≠
      (ToolCall.mk ("a") (ToolCallFunction.mk ("other") (some ("x")))).id :=
  ⟨rfl, by decide⟩

/-- C5 (amended): when the freshdesk tool-call loop completes without a
raised exception, the output at position `i` carries the identifier of
the request at position `i`; in the email tool-call loop the outputs
follow the input order of the requests named `"send_email"` only (the
other requests are dropped, shifting later outputs forward). -/
theorem C5_output_order :
    (∀ (jl : String → Except String ArgsDict) (w : Nat → PostResult)
        (tool_calls : List ToolCall) (outs : List ToolOutput)
        (invs : List (String × String)),
      freshdeskResolveOnce jl w tool_calls = Except.ok (outs, invs) →
      ∀ (i : Nat) (hi : i < outs.length) (hc : i < tool_calls.length),
      (outs.get ⟨i, hi⟩).tool_call_id = (tool_calls.get ⟨i, hc⟩).id) ∧
    (∀ (jl : String → Except String ArgsDict) (w : Nat → EmailPostResult)
        (tool_calls : List ToolCall) (outs : List ToolOutput)
        (invs : List (String × String × String)),
      emailResolveOnce jl w tool_calls = Except.ok (outs, invs) →
      outs.map (fun o => o.tool_call_id) =
        (tool_calls.filter
          (fun c => c.function.name == "send_email")).map (fun c => c.id)) := by
  constructor
  · intro jl w tool_calls outs invs h i hi hc
    have hm := freshdeskGo_ids jl w tool_calls 0 outs invs h
    have h2 := congrArg (fun l => l[i]?) hm
    simp only [List.getElem?_map] at h2
    rw [List.getElem?_eq_getElem hi, List.getElem?_eq_getElem hc] at h2
    simpa using h2
  · intro jl w tool_calls outs invs h
    exact emailGo_ids jl w tool_calls 0 outs invs h

/-- C5 witness: concrete instances — the freshdesk output at position 0
carries the identifier of request 0, and the email outputs follow the
filtered input order. -/
theorem C5_output_order_witness :
    ([ToolOutput.mk ("a") (dumpsUnknown ("nope"))].get
        ⟨0, by decide⟩).tool_call_id = ([cNope].get ⟨0, by decide⟩).id ∧
    [ToolOutput.mk ("b") "✅ Email sent!"].map (fun o => o.tool_call_id) =
      (([ToolCall.mk ("a") (ToolCallFunction.mk ("other") (some ("x"))),
          cSend]).filter
        (fun c => c.function.name == "send_email")).map (fun c => c.id) :=
  ⟨C5_output_order.1 jlEmpty wFresh400 [cNope]
      [ToolOutput.mk ("a") (dumpsUnknown ("nope"))] [] rfl 0 (by decide) (by decide),
   C5_output_order.2 jlEmail wEmailOk
      [ToolCall.mk ("a") (ToolCallFunction.mk ("other") (some ("x"))), cSend]
      [ToolOutput.mk ("b") "✅ Email sent!"] [("u", "s", "b")] rfl⟩

/-- C3 counterexample: in the freshdesk tool-call loop, a raised
exception from the HTTP request of `create_freshdesk_ticket` is not caught —
the whole loop aborts with the exception instead of producing an
error-shaped output for the request. -/
theorem C3_counterexample :
    freshdeskResolveOnce jlEmpty wFreshRaise [cTicket] =
      Except.error ("ConnectionError") :=
  rfl

/-- C3 (amended): `send_email_function` catches every exception inside
its own body, so in the email loop a handled `"send_email"` request
always receives an output — the handler failure (any world, including a
raised one) becomes the output string and the loop continues; but
`create_freshdesk_ticket` has no `try`, so an exception raised by its
HTTP request propagates out of the freshdesk loop uncaught (as do
argument-decoding failures in either loop). -/
theorem C3_handler_failures :
    (∀ (jl : String → Except String ArgsDict) (w : Nat → EmailPostResult)
        (i : Nat) (c : ToolCall) (rest : List ToolCall) (raw : String)
        (args : ArgsDict) (email_to email_subject email_body : String),
      c.function.name = "send_email" →
      c.function.arguments = some raw →
      jl raw = Except.ok args →
      pyIndex args ("email_to") = Except.ok email_to →
      pyIndex args ("email_subject") = Except.ok email_subject →
      pyIndex args ("email_body") = Except.ok email_body →
      emailResolveGo jl w i (c :: rest) =
        (emailResolveGo jl w (i + 1) rest).map
          (fun tail =>
            (ToolOutput.mk c.id
                (send_email_function email_to email_subject email_body
                  (w i)) :: tail.1,
             (email_to, email_subject, email_body) :: tail.2))) ∧
    (∀ (jl : String → Except String ArgsDict) (w : Nat → PostResult)
        (c : ToolCall) (rest : List ToolCall) (args : ArgsDict) (m : String),
      c.function.name = "create_freshdesk_ticket" →
      jl (pyOrBraces c.function.arguments) = Except.ok args →
      w 0 = PostResult.raised m →
      freshdeskResolveOnce jl w (c :: rest) = Except.error m) := by
  constructor
  · intro jl w i c rest raw args email_to email_subject email_body
      hname harg hjl h1 h2 h3
    simp only [emailResolveGo, if_pos hname, emailHandle, harg, hjl, h1, h2, h3]
    cases ht : emailResolveGo jl w (i + 1) rest with
    | error m => simp [Except.map]
    | ok tail => simp [Except.map]
  · intro jl w c rest args m hname hjl hw
    simp only [freshdeskResolveOnce, freshdeskResolveGo, freshdeskHandle,
      hjl, if_pos hname, hw, create_freshdesk_ticket]

/-- C3 witness: concrete instances — with a raising email world the
`"send_email"` request still gets an output (the error string), while the
raising freshdesk world aborts the loop. -/
theorem C3_handler_failures_witness :
    emailResolveGo jlEmail wEmailRaise 0 [cSend] =
      (emailResolveGo jlEmail wEmailRaise 1 []).map
        (fun tail =>
          (ToolOutput.mk cSend.id
              (send_email_function ("u") "s" "b" (wEmailRaise 0)) :: tail.1,
           ("u", "s", "b") :: tail.2)) ∧
    freshdeskResolveOnce jlEmpty wFreshRaise [cTicket] =
      Except.error ("ConnectionError") :=
  ⟨C3_handler_failures.1 jlEmail wEmailRaise 0 cSend [] "x"
      [("email_to", "u"), ("email_subject", "s"), ("email_body", "b")]
      "u" "s" "b" rfl rfl rfl rfl rfl rfl,
   C3_handler_failures.2 jlEmpty wFreshRaise cTicket [] [] "ConnectionError"
      rfl rfl rfl⟩

/-- C7: resolving the same pending calls against the handler registry
twice — in possibly different worlds, so the handlers may return
different payloads — yields outputs with identical identifier sequences,
for both loops, whenever both resolutions complete. -/
theorem C7_idempotent_identifiers :
    (∀ (jl : String → Except String ArgsDict) (w₁ w₂ : Nat → PostResult)
        (tool_calls : List ToolCall) (outs₁ outs₂ : List ToolOutput)
        (invs₁ invs₂ : List (String × String)),
      freshdeskResolveOnce jl w₁ tool_calls = Except.ok (outs₁, invs₁) →
      freshdeskResolveOnce jl w₂ tool_calls = Except.ok (outs₂, invs₂) →
      outs₁.map (fun o => o.tool_call_id) =
        outs₂.map (fun o => o.tool_call_id)) ∧
    (∀ (jl : String → Except String ArgsDict)
        (w₁ w₂ : Nat → EmailPostResult) (tool_calls : List ToolCall)
        (outs₁ outs₂ : List ToolOutput)
        (invs₁ invs₂ : List (String × String × String)),
      emailResolveOnce jl w₁ tool_calls = Except.ok (outs₁, invs₁) →
      emailResolveOnce jl w₂ tool_calls = Except.ok (outs₂, invs₂) →
      outs₁.map (fun o => o.tool_call_id) =
        outs₂.map (fun o => o.tool_call_id)) := by
  constructor
  · intro jl w₁ w₂ tool_calls outs₁ outs₂ invs₁ invs₂ h₁ h₂
    exact (freshdeskGo_ids jl w₁ tool_calls 0 outs₁ invs₁ h₁).trans
      (freshdeskGo_ids jl w₂ tool_calls 0 outs₂ invs₂ h₂).symm
  · intro jl w₁ w₂ tool_calls outs₁ outs₂ invs₁ invs₂ h₁ h₂
    exact (emailGo_ids jl w₁ tool_calls 0 outs₁ invs₁ h₁).trans
      (emailGo_ids jl w₂ tool_calls 0 outs₂ invs₂ h₂).symm

/-- C7 witness: concrete instances — a 400 world and a 201 world give the
freshdesk request different payloads but the same identifier sequence,
and likewise for an ok and a raising email world. -/
theorem C7_idempotent_identifiers_witness :
    [ToolOutput.mk ("id3") (dumpsStatusError 400 ("bad"))].map
        (fun o => o.tool_call_id) =
      [ToolOutput.mk ("id3") "TICKET"].map (fun o => o.tool_call_id) ∧
    [ToolOutput.mk ("b") "✅ Email sent!"].map (fun o => o.tool_call_id) =
      [ToolOutput.mk ("b") ("❌ Error: " ++ "boom")].map
        (fun o => o.tool_call_id) :=
  ⟨C7_idempotent_identifiers.1 jlEmpty wFresh400 wFresh201 [cTicket]
      [ToolOutput.mk ("id3") (dumpsStatusError 400 ("bad"))]
      [ToolOutput.mk ("id3") "TICKET"] [("", "")] [("", "")] rfl rfl,
   C7_idempotent_identifiers.2 jlEmail wEmailOk wEmailRaise [cSend]
      [ToolOutput.mk ("b") "✅ Email sent!"]
      [ToolOutput.mk ("b") ("❌ Error: " ++ "boom")]
      [("u", "s", "b")] [("u", "s", "b")] rfl rfl⟩

/-- C10: in the freshdesk loop an empty or absent argument string is
replaced by `"{}"` before decoding (Python `arguments or "{}"`), so with
`json.loads("{}") = {}` the decoded argument object is empty; and
whenever the decoded arguments lack the `"Email"` or `"Subject"` keys,
`create_freshdesk_ticket` is still invoked, with the empty string as the
default for each missing key. -/
theorem C10_default_arguments :
    (∀ (s : Option String), (s = none ∨ s = some ("")) →
      pyOrBraces s = "\x7b\x7d") ∧
    (∀ (jl : String → Except String ArgsDict) (w : Nat → PostResult)
        (idStr : String) (argopt : Option String) (args : ArgsDict) (i : Nat),
      jl (pyOrBraces argopt) = Except.ok args →
      args.find? (fun kv => kv.1 = "Email") = none →
      args.find? (fun kv => kv.1 = "Subject") = none →
      freshdeskHandle jl w i
          (ToolCall.mk idStr
            (ToolCallFunction.mk ("create_freshdesk_ticket") argopt)) =
        (create_freshdesk_ticket ("") "" (w i)).map
          (fun result => (result, [("", "")]))) ∧
    (∀ (jl : String → Except String ArgsDict) (w : Nat → PostResult)
        (idStr : String) (argopt : Option String) (i : Nat),
      jl ("\x7b\x7d") = Except.ok [] →
      (argopt = none ∨ argopt = some ("")) →
      freshdeskHandle jl w i
          (ToolCall.mk idStr
            (ToolCallFunction.mk ("create_freshdesk_ticket") argopt)) =
        (create_freshdesk_ticket ("") "" (w i)).map
          (fun result => (result, [("", "")]))) := by
  have hbraces : ∀ (s : Option String), (s = none ∨ s = some ("")) →
      pyOrBraces s = "\x7b\x7d" := by
    intro s hs
    rcases hs with hs | hs <;> subst hs <;> rfl
  have hhandle : ∀ (jl : String → Except String ArgsDict)
      (w : Nat → PostResult) (idStr : String) (argopt : Option String)
      (args : ArgsDict) (i : Nat),
      jl (pyOrBraces argopt) = Except.ok args →
      args.find? (fun kv => kv.1 = "Email") = none →
      args.find? (fun kv => kv.1 = "Subject") = none →
      freshdeskHandle jl w i
          (ToolCall.mk idStr
            (ToolCallFunction.mk ("create_freshdesk_ticket") argopt)) =
        (create_freshdesk_ticket ("") "" (w i)).map
          (fun result => (result, [("", "")])) := by
    intro jl w idStr argopt args i hjl hE hS
    have hge : pyGetDefault args ("Email") "" = "" := by
      rw [pyGetDefault, hE]
    have hgs : pyGetDefault args ("Subject") "" = "" := by
      rw [pyGetDefault, hS]
    simp only [freshdeskHandle, hjl, if_pos rfl, hge, hgs]
    cases hc : create_freshdesk_ticket ("") "" (w i) with
    | error m => simp [Except.map]
    | ok result => simp [Except.map]
  refine ⟨hbraces, hhandle, ?_⟩
  intro jl w idStr argopt i hjl hs
  have h1 := hbraces argopt hs
  exact hhandle jl w idStr argopt [] i (by rw [h1, hjl]) rfl rfl

/-- C10 witness: concrete instances — an absent argument string decodes
through `"{}"` to the empty dict and the handler is invoked with
`("", "")`; likewise for a decoded dict lacking both keys. -/
theorem C10_default_arguments_witness :
    pyOrBraces none = "\x7b\x7d" ∧
    freshdeskHandle jlEmpty wFresh400 0
        (ToolCall.mk ("t10")
          (ToolCallFunction.mk ("create_freshdesk_ticket") none)) =
      (create_freshdesk_ticket ("") "" (wFresh400 0)).map
        (fun result => (result, [("", "")])) ∧
    freshdeskHandle jlOther wFresh400 0
        (ToolCall.mk ("t11")
          (ToolCallFunction.mk ("create_freshdesk_ticket") (some ("\x7b\"Other\": \"x\"\x7d")))) =
      (create_freshdesk_ticket ("") "" (wFresh400 0)).map
        (fun result => (result, [("", "")])) :=
  ⟨C10_default_arguments.1 none (Or.inl rfl),
   C10_default_arguments.2.2 jlEmpty wFresh400 ("t10") none 0 rfl (Or.inl rfl),
   C10_default_arguments.2.1 jlOther wFresh400 ("t11")
      (some ("\x7b\"Other\": \"x\"\x7d")) [("Other", "x")] 0 rfl rfl rfl⟩

/-- A successful extraction always yields the five weather fields, in
the order the source builds its dict. -/
theorem extractWeather_keys :
    ∀ (data : Json) (d : List (String × Json)),
      extractWeather data = Except.ok d →
      d.map Prod.fst =
        ["latitude", "longitude", "weather_condition", "temperature",
          "city"] := by
  intro data d h
  unfold extractWeather at h
  repeat' split at h
  all_goals first
    | (exfalso; exact Except.noConfusion h)
    | (obtain rfl : _ = d := Except.ok.inj h; rfl)

/-- On a non-200 status, `get_weather` always returns a one-key error
dict (either the API message or the stringified exception). -/
theorem getWeather_non200_keys :
    ∀ (sc : Nat) (dataE : Except String Json), sc ≠ 200 →
      (get_weather (WeatherHttp.response sc dataE)).map Prod.fst =
        ["error"] := by
  intro sc dataE hsc
  cases dataE with
  | error m => simp [get_weather, getWeatherTryBody]
  | ok data =>
      cases hg : jsonGetDefault data ("message") (Json.str ("API error")) with
      | error m => simp [get_weather, getWeatherTryBody, hsc, hg]
      | ok msg => simp [get_weather, getWeatherTryBody, hsc, hg]

/-- C8: `get_weather` is total (its whole body is inside `try`) and
always returns a dict: a raised request exception becomes
`{"error": str(e)}`; any non-200 response yields a dict whose only key is
`"error"`; every result has either the single `"error"` key or exactly
the five weather keys; and on a 200 response whose body extraction
succeeds the result is that extraction, carrying `latitude`, `longitude`,
`weather_condition`, `temperature` and `city`. -/
theorem C8_get_weather_total_shape :
    (∀ m, get_weather (WeatherHttp.raised m) = [("error", Json.str m)]) ∧
    (∀ (sc : Nat) (dataE : Except String Json), sc ≠ 200 →
      (get_weather (WeatherHttp.response sc dataE)).map Prod.fst =
        ["error"]) ∧
    (∀ h : WeatherHttp,
      (get_weather h).map Prod.fst = ["error"] ∨
      (get_weather h).map Prod.fst =
        ["latitude", "longitude", "weather_condition", "temperature",
          "city"]) ∧
    (∀ (data : Json) (d : List (String × Json)),
      extractWeather data = Except.ok d →
      get_weather (WeatherHttp.response 200 (Except.ok data)) = d ∧
      d.map Prod.fst =
        ["latitude", "longitude", "weather_condition", "temperature",
          "city"]) := by
  refine ⟨fun m => rfl, getWeather_non200_keys, ?_, ?_⟩
  · intro h
    cases h with
    | raised m => left; rfl
    | response sc dataE =>
        by_cases h200 : sc = 200
        · subst h200
          cases dataE with
          | error m => left; rfl
          | ok data =>
              cases he : extractWeather data with
              | error m => left; simp [get_weather, getWeatherTryBody, he]
              | ok d =>
                  right
                  have hk := extractWeather_keys data d he
                  simpa [get_weather, getWeatherTryBody, he] using hk
        · left; exact getWeather_non200_keys sc dataE h200
  · intro data d he
    refine ⟨?_, extractWeather_keys data d he⟩
    simp [get_weather, getWeatherTryBody, he]

/-- A 200-response body with the shape the OpenWeatherMap API returns. -/
def weatherJson : Json :=
  Json.obj [("coord", Json.obj [("lat", Json.num 51), ("lon", Json.num 0)]),
    ("weather", Json.arr [Json.obj [("description", Json.str ("mist"))]]),
    ("main", Json.obj [("temp", Json.num 20)])]

/-- The dict `get_weather` builds from `weatherJson` (the body has no
`"name"` key, so `city` falls back to `"Unknown"`). -/
def weatherFields : List (String × Json) :=
  [("latitude", Json.num 51), ("longitude", Json.num 0),
   ("weather_condition", Json.str ("mist")), ("temperature", Json.num 20),
   ("city", Json.str ("Unknown"))]

/-- C8 witness: concrete instances — a raised exception, a 404 response,
and a well-formed 200 response. -/
theorem C8_get_weather_total_shape_witness :
    get_weather (WeatherHttp.raised ("boom")) =
      [("error", Json.str ("boom"))] ∧
    (get_weather (WeatherHttp.response 404
        (Except.ok (Json.obj [("message", Json.str ("not found"))])))).map
      Prod.fst = ["error"] ∧
    get_weather (WeatherHttp.response 200 (Except.ok weatherJson)) =
      weatherFields ∧
    weatherFields.map Prod.fst =
      ["latitude", "longitude", "weather_condition", "temperature",
        "city"] :=
  ⟨C8_get_weather_total_shape.1 ("boom"),
   C8_get_weather_total_shape.2.1 404
      (Except.ok (Json.obj [("message", Json.str ("not found"))])) (by decide),
   (C8_get_weather_total_shape.2.2.2 weatherJson weatherFields rfl).1,
   (C8_get_weather_total_shape.2.2.2 weatherJson weatherFields rfl).2⟩

end AgentSpec
